import Mathlib

/-!
Verification of the ichnaea station-data export/import pipeline
(`src/ichnaea/export/tasks.py`): the record codec between the internal row
representation and the public CSV representation, the streaming CSV writer,
the hourly export window predicate, and the batched upsert importer.

Python values flowing through the codec (strings read by `csv.DictReader`,
ints/floats/None coming from database rows, the booleans used as defaults)
are modelled by the `Val` type below; Python floats are modelled as exact
rationals (no operation in this code depends on floating-point rounding).
Python exceptions raised inside a transform are modelled as `Except.error ()`.
-/

/-- A Python value as it appears in the row dictionaries of
`make_cell_export_dict` / `make_cell_import_dict`: `None`, a string, an int,
a float (modelled as `Rat`), or a bool. -/
inductive Val where
  | none
  | str (s : String)
  | int (i : Int)
  | rat (q : Rat)
  | bool (b : Bool)
deriving DecidableEq

instance {ε α : Type} [DecidableEq ε] [DecidableEq α] : DecidableEq (Except ε α) :=
  fun a b =>
    match a, b with
    | Except.ok x, Except.ok y =>
      if h : x = y then Decidable.isTrue (by rw [h])
      else Decidable.isFalse (by simp [h])
    | Except.error e, Except.error f =>
      if h : e = f then Decidable.isTrue (by rw [h])
      else Decidable.isFalse (by simp [h])
    | Except.ok _, Except.error _ => Decidable.isFalse (by simp)
    | Except.error _, Except.ok _ => Decidable.isFalse (by simp)

/-- Digit characters, as tested by Python string-to-number conversion. -/
def isDigitChar (c : Char) : Bool := '0' ≤ c && c ≤ '9'

/-- Whitespace stripped by Python `int()` / `float()` around a numeric string. -/
def isPySpace (c : Char) : Bool :=
  c = ' ' || c = '\t' || c = '\n' || c = '\r' || c = '\x0b' || c = '\x0c'

/-- Strip leading and trailing whitespace from a character list. -/
def trimChars (cs : List Char) : List Char :=
  ((cs.dropWhile isPySpace).reverse.dropWhile isPySpace).reverse

/-- Numeric value of a digit list (most significant first). -/
def natOfDigits (cs : List Char) : Nat :=
  cs.foldl (fun n c => n * 10 + (c.toNat - 48)) 0

/-- Model of Python `int(s)` on a string: optional sign, one or more digits,
surrounding whitespace tolerated; anything else raises (`Option.none`). -/
def parsePyInt (s : String) : Option Int :=
  let core : List Char → Option Int := fun cs =>
    if cs ≠ [] && cs.all isDigitChar then Option.some (natOfDigits cs : Int)
    else Option.none
  match trimChars s.data with
  | '-' :: rest => (core rest).map (fun i => -i)
  | '+' :: rest => core rest
  | cs => core cs

/-- Exponent of a Python float literal (digits after the `e`/`E`). -/
def parseExponent (cs : List Char) : Option Int :=
  let core : List Char → Option Nat := fun ds =>
    if ds ≠ [] && ds.all isDigitChar then Option.some (natOfDigits ds) else Option.none
  match cs with
  | '-' :: rest => (core rest).map (fun k => -(k : Int))
  | '+' :: rest => (core rest).map (fun k => (k : Int))
  | ds => (core ds).map (fun k => (k : Int))

/-- Digits of a Python float literal (`12`, `12.`, `.5`, `1.5`, `1.5e-3`,
...): the mantissa digits read as a natural number, the number of
fractional digits, and the exponent. -/
def parseFloatCore (cs : List Char) : Option (Nat × Nat × Int) :=
  let ip := cs.takeWhile isDigitChar
  let rest1 := cs.drop ip.length
  let withExp : List Char → Nat → Nat → Option (Nat × Nat × Int) :=
    fun rest n scale =>
      match rest with
      | [] => Option.some (n, scale, 0)
      | 'e' :: ex => (parseExponent ex).map (fun k => (n, scale, k))
      | 'E' :: ex => (parseExponent ex).map (fun k => (n, scale, k))
      | _ => Option.none
  match rest1 with
  | '.' :: rest2 =>
    let fp := rest2.takeWhile isDigitChar
    let rest3 := rest2.drop fp.length
    if ip.length + fp.length = 0 then Option.none
    else withExp rest3 (natOfDigits (ip ++ fp)) fp.length
  | _ =>
    if ip = [] then Option.none else withExp rest1 (natOfDigits ip) 0

/-- Assemble `sign * n * 10 ^ (ex - scale)` as a rational, using only
integer arithmetic and one `mkRat`. -/
def ratOfFloatParts (sign : Bool) (n : Nat) (scale : Nat) (ex : Int) : Rat :=
  let num : Int := if sign then -(n : Int) else (n : Int)
  let e : Int := ex - (scale : Int)
  if 0 ≤ e then mkRat (num * ((10 : Nat) ^ e.toNat : Nat)) 1
  else mkRat num ((10 : Nat) ^ (-e).toNat)

/-- Model of Python `float(s)` on a string (decimal and exponent forms;
`inf`/`nan` spellings are not modelled, no claim depends on them). -/
def parsePyFloat (s : String) : Option Rat :=
  match trimChars s.data with
  | '-' :: rest => (parseFloatCore rest).map (fun p => ratOfFloatParts true p.1 p.2.1 p.2.2)
  | '+' :: rest => (parseFloatCore rest).map (fun p => ratOfFloatParts false p.1 p.2.1 p.2.2)
  | cs => (parseFloatCore cs).map (fun p => ratOfFloatParts false p.1 p.2.1 p.2.2)

/-- Truncation toward zero, the behaviour of Python `int()` on a float:
the numerator `tdiv` the (positive) denominator. -/
def ratTrunc (q : Rat) : Int := q.num.tdiv (q.den : Int)

/-- Model of Python `int(x)` on a codec value; `Option.none` models the
`TypeError`/`ValueError` it raises. -/
def pyInt : Val → Option Int
  | Val.int i => Option.some i
  | Val.str s => parsePyInt s
  | Val.rat q => Option.some (ratTrunc q)
  | Val.bool b => Option.some (if b then 1 else 0)
  | Val.none => Option.none

/-- Model of Python `float(x)` on a codec value. -/
def pyFloat : Val → Option Rat
  | Val.int i => Option.some (i : Rat)
  | Val.rat q => Option.some q
  | Val.str s => parsePyFloat s
  | Val.bool b => Option.some (if b then 1 else 0)
  | Val.none => Option.none

/-- Model of Python `bool(x)`: truthiness.  Note that every non-empty
string is truthy, including `"0"`. -/
def pyBool : Val → Bool
  | Val.none => false
  | Val.str s => s ≠ ""
  | Val.int i => i ≠ 0
  | Val.rat q => q ≠ 0
  | Val.bool b => b

/-- ASCII lowering of one character, as Python `str.lower` does for the
radio-type names appearing here. -/
def lowerString (s : String) : String := String.mk (s.data.map Char.toLower)

/-- ASCII raising, as the `.upper()` call building `CELL_EXPORT_RADIO_NAMES`. -/
def upperString (s : String) : String := String.mk (s.data.map Char.toUpper)

/-- A row dictionary: association list from field name to value, as produced
by `csv.DictReader` (string values) or by `make_cell_export_dict`. -/
abbrev ExtRow := List (String × Val)

/-- Python `row[key]` lookup, `Option.none` when the key is absent. -/
def lookupField (r : ExtRow) (k : String) : Option Val :=
  (r.find? (fun p => p.1 == k)).map (fun p => p.2)

/-- The helper `val(key, default)` of `make_cell_import_dict`
(tasks.py lines 123-127): the stored value unless the key is absent, the
value is the empty string, or the value is `None`. -/
def pyDictVal (r : ExtRow) (k : String) (dflt : Val) : Val :=
  match lookupField r k with
  | Option.some v => if v = Val.str "" ∨ v = Val.none then dflt else v
  | Option.none => dflt

/-- Whether a field is absent, `None`, or the empty string — exactly the
cases in which `val(key, default)` substitutes its default. -/
def missingOrEmptyField (r : ExtRow) (k : String) : Bool :=
  match lookupField r k with
  | Option.none => true
  | Option.some v => decide (v = Val.str "") || decide (v = Val.none)

/-- `CELL_FIELDS` (tasks.py lines 31-34): the external file columns, in order. -/
def CELL_FIELDS : List String :=
  ["radio", "mcc", "mnc", "lac", "cid", "psc",
   "lon", "lat", "range", "samples", "changeable",
   "created", "updated", "averageSignal"]

/-- `CELL_COLUMN_NAMES` (tasks.py lines 46-49): the columns selected from
`cell_table` for the export.  Note `changeable` is not among them. -/
def CELL_COLUMN_NAMES : List String :=
  ["created", "modified", "lat", "lon",
   "radio", "mcc", "mnc", "lac", "cid", "psc",
   "range", "total_measures"]

/-- `CELL_HEADER_DICT` (tasks.py lines 39-43) as a function: the public
export name of each internal field (`mnc`→`net`, `lac`→`area`, `cid`→`cell`,
`psc`→`unit`, identity otherwise). -/
def cellHeaderName (f : String) : String :=
  if f = "mnc" then "net"
  else if f = "lac" then "area"
  else if f = "cid" then "cell"
  else if f = "psc" then "unit"
  else f

/-- Modelled from the spec: `RADIO_TYPE` lives in `ichnaea.models`, which is
not under `src/`.  The spec's data model (§3) fixes the radio-type enum as
GSM, UMTS, LTE, with "unknown" as the default code `-1` used by
`RADIO_TYPE.get(..., -1)` at tasks.py line 140. -/
def RADIO_TYPE : List (String × Int) := [("gsm", 0), ("umts", 1), ("lte", 2)]

/-- Modelled from the spec: the inverse mapping `RADIO_TYPE_INVERSE` of
`ichnaea.models` (not under `src/`), which export consults after mapping a
`None` radio to `-1` (tasks.py lines 106-107); per spec §8.7 the unknown
code round-trips through a literal "unknown" name. -/
def RADIO_TYPE_INVERSE : List (Int × String) :=
  [(0, "gsm"), (1, "umts"), (2, "lte"), (-1, "unknown")]

/-- `CELL_EXPORT_RADIO_NAMES` (tasks.py lines 62-63): the upper-cased radio
names used in export files. -/
def CELL_EXPORT_RADIO_NAMES : List (Int × String) :=
  RADIO_TYPE_INVERSE.map (fun p => (p.1, upperString p.2))

/-- Modelled from the spec: `CELLID_LAC`, the "LAC aggregate" sentinel cell
id of `ichnaea.models` (not under `src/`, spec §4.5); its concrete value is
immaterial to every claim. -/
def CELLID_LAC : Int := -2

/-- A result row of the export `SELECT`, one field per entry of
`CELL_COLUMN_NAMES` (the source accesses it positionally through
`CELL_COLUMN_NAME_INDICES`; here each position is a named field).
`created`/`modified` already pass through SQL `unix_timestamp`, so they are
epoch seconds; nullable columns are `Option`. -/
structure CellRow where
  created : Int
  modified : Int
  lat : Option Rat
  lon : Option Rat
  radio : Option Int
  mcc : Int
  mnc : Int
  lac : Int
  cid : Int
  psc : Option Int
  range : Int
  total_measures : Int
deriving DecidableEq

/-- The record produced by the import transform: the keys of the dict `d`
built by `make_cell_import_dict`.  Datetimes are represented by their epoch
seconds (`datetime.fromtimestamp` on import and `unix_timestamp` on export
are mutually inverse on them, the interchange being UTC per spec §6). -/
structure CellRecord where
  created : Int
  modified : Int
  lat : Rat
  lon : Rat
  radio : Int
  mcc : Int
  mnc : Int
  lac : Int
  cid : Int
  psc : Int
  range : Int
  total_measures : Int
  changeable : Bool
deriving DecidableEq

/-- A `Val` for a nullable float column. -/
def optRatVal : Option Rat → Val
  | Option.some q => Val.rat q
  | Option.none => Val.none

/-- The radio code looked up on export (tasks.py lines 105-107): the
stored code, with `None` replaced by `-1`. -/
def exportRadioCode : Option Int → Int
  | Option.none => -1
  | Option.some c => c

/-- The exported `psc` value (tasks.py lines 109-111, 117): blank for
`None` or `-1`, the stored value otherwise. -/
def exportPscVal : Option Int → Val
  | Option.none => Val.str ""
  | Option.some p => if p = -1 then Val.str "" else Val.int p

/-- The dict `make_cell_export_dict` returns, given the public radio name.
The source first sets `changeable`/`averageSignal`, then copies every
`CELL_FIELDS` entry that is also a selected column (`radio, mcc, mnc, lac,
cid, psc, lon, lat, range, created`), then overwrites `radio` (public
name), `created`, `updated` (from `modified`), `samples` (from
`total_measures`) and `psc`; the result is written out literally here, one
entry per key, in insertion order. -/
def exportDictOf (row : CellRow) (rname : String) : ExtRow :=
  [("changeable", Val.int 1), ("averageSignal", Val.str ""),
   ("radio", Val.str rname), ("mcc", Val.int row.mcc),
   ("mnc", Val.int row.mnc), ("lac", Val.int row.lac),
   ("cid", Val.int row.cid), ("psc", exportPscVal row.psc),
   ("lon", optRatVal row.lon), ("lat", optRatVal row.lat),
   ("range", Val.int row.range), ("created", Val.int row.created),
   ("updated", Val.int row.modified),
   ("samples", Val.int row.total_measures)]

/-- `make_cell_export_dict` (tasks.py lines 92-118).  An unmapped radio
code raises `KeyError` at `CELL_EXPORT_RADIO_NAMES[radio]` — modelled by
`Option.none`. -/
def makeCellExportDict (row : CellRow) : Option ExtRow :=
  match CELL_EXPORT_RADIO_NAMES.lookup (exportRadioCode row.radio) with
  | Option.none => Option.none
  | Option.some rname => Option.some (exportDictOf row rname)

/-- Modelled from the spec: `normalized_cell_dict` lives in
`ichnaea.data.validation`, which is not under `src/`.  The spec's codec
contract (§4.1) specifies rejection only for numeric parse failures, which
in `make_cell_import_dict` occur before normalization, so normalization is
modelled as accepting every parsed record unchanged. -/
def normalized_cell_dict (d : CellRecord) : Option CellRecord := Option.some d

/-- `make_cell_import_dict` (tasks.py lines 121-149).  Each `int()` /
`float()` / `row['radio'].lower()` call that would raise maps to the
`Except.error ()` branch, evaluated in source order.  `Except.ok
Option.none` is the `normalized_cell_dict`-returned-`None` case tested by
`import_stations` ("if d is not None"). -/
def makeCellImportDict (row : ExtRow) : Except Unit (Option CellRecord) :=
  match pyInt (pyDictVal row "created" (Val.int 0)) with
  | Option.none => Except.error ()
  | Option.some created =>
  match pyInt (pyDictVal row "updated" (Val.int 0)) with
  | Option.none => Except.error ()
  | Option.some modified =>
  match pyFloat (pyDictVal row "lat" (Val.int (-255))) with
  | Option.none => Except.error ()
  | Option.some lat =>
  match pyFloat (pyDictVal row "lon" (Val.int (-255))) with
  | Option.none => Except.error ()
  | Option.some lon =>
  match lookupField row "radio" with
  | Option.some (Val.str rs) =>
    let radio : Int := ((RADIO_TYPE.lookup (lowerString rs)).getD (-1))
    match pyInt (pyDictVal row "mcc" (Val.int (-1))) with
    | Option.none => Except.error ()
    | Option.some mcc =>
    match pyInt (pyDictVal row "mnc" (Val.int (-1))) with
    | Option.none => Except.error ()
    | Option.some mnc =>
    match pyInt (pyDictVal row "lac" (Val.int (-1))) with
    | Option.none => Except.error ()
    | Option.some lac =>
    match pyInt (pyDictVal row "cid" (Val.int (-1))) with
    | Option.none => Except.error ()
    | Option.some cid =>
    match pyInt (pyDictVal row "psc" (Val.int (-1))) with
    | Option.none => Except.error ()
    | Option.some psc =>
    match pyFloat (pyDictVal row "range" (Val.int 0)) with
    | Option.none => Except.error ()
    | Option.some rangeF =>
    match pyInt (pyDictVal row "samples" (Val.int (-1))) with
    | Option.none => Except.error ()
    | Option.some total =>
      Except.ok (normalized_cell_dict
        { created := created, modified := modified, lat := lat, lon := lon,
          radio := radio, mcc := mcc, mnc := mnc, lac := lac, cid := cid,
          psc := psc, range := ratTrunc rangeF, total_measures := total,
          changeable := pyBool (pyDictVal row "changeable" (Val.bool true)) })
  | _ => Except.error ()

/-- One CSV line as `csv.DictWriter(f, CELL_FIELDS)` writes a row dict: the
values in `CELL_FIELDS` order (`restval` default: empty string). -/
def dictWriterLine (d : ExtRow) : List Val :=
  CELL_FIELDS.map (fun f => (lookupField d f).getD (Val.str ""))

/-- The header line `w.writerow(CELL_HEADER_DICT)` produces: the public
column names, in `CELL_FIELDS` order. -/
def headerLine : List Val := CELL_FIELDS.map (fun f => Val.str (cellHeaderName f))

/-- The list comprehension `[make_dict(r) for r in rows]` (tasks.py line
164): evaluated left to right, the whole page failing if any row does. -/
def exportPage : List CellRow → Option (List ExtRow)
  | [] => Option.some []
  | row :: rows =>
    match makeCellExportDict row with
    | Option.none => Option.none
    | Option.some d => (exportPage rows).map (fun ds => d :: ds)

/-- The paged query loop of `write_stations_to_csv` (tasks.py lines
159-167).  The database is abstracted as the list `T` of rows matching the
predicate in primary-key order; `select ... limit 10000 offset k` becomes
`(T.drop k).take 10000`; an empty page ends the loop.  Returns the data
lines written and whether the loop completed; a `KeyError` from
`make_cell_export_dict` (evaluated for a whole page before any of it is
written) stops the loop with nothing of that page written, modelling the
raised exception.  The `fuel` argument only bounds the recursion: each
non-empty page has `offset < T.length` and advances `offset` by 10000, so
`T.length + 1` page fetches always reach the empty page and the
fuel-exhausted branch is never taken from `writeStationsToCsv`. -/
def writePages : Nat → List CellRow → Nat → List (List Val) × Bool
  | 0, _, _ => ([], true)
  | fuel + 1, T, offset =>
    if (T.drop offset).take 10000 = [] then ([], true)
    else
      match exportPage ((T.drop offset).take 10000) with
      | Option.none => ([], false)
      | Option.some ds =>
        (ds.map dictWriterLine ++ (writePages fuel T (offset + 10000)).1,
          (writePages fuel T (offset + 10000)).2)

/-- `write_stations_to_csv` (tasks.py lines 152-167) for the cell export:
header row first, then the paged data rows.  The `Bool` records whether
the write completed without an exception. -/
def writeStationsToCsv (T : List CellRow) : List (List Val) × Bool :=
  (headerLine :: (writePages (T.length + 1) T 0).1, (writePages (T.length + 1) T 0).2)

/-- The cell-table columns consulted by the export predicate of
`export_modified_cells`; `modified` is in microseconds since the epoch
(the resolution of Python datetimes being compared against). -/
structure CellDbRow where
  modified : Int
  cid : Int
  lat : Option Rat
deriving DecidableEq

/-- Microseconds per second / per hour. -/
def MICROS_PER_SECOND : Int := 1000000

def MICROS_PER_HOUR : Int := 3600000000

/-- Python `now.replace(minute=0, second=0)` (tasks.py line 185) on an
instant in epoch microseconds: the minute and second fields are zeroed,
the hour and the microsecond field are kept. -/
def replaceMinuteSecondZero (t : Int) : Int :=
  t - t % MICROS_PER_HOUR + t % MICROS_PER_SECOND

/-- The hourly selection predicate of `export_modified_cells` (tasks.py
lines 184-192): `modified >= end_time - 1h`, `modified < end_time`,
`cid != CELLID_LAC`, `lat IS NOT NULL`, with
`end_time = now.replace(minute=0, second=0)`. -/
def hourlyExportCond (now : Int) (r : CellDbRow) : Bool :=
  decide (replaceMinuteSecondZero now - MICROS_PER_HOUR ≤ r.modified) &&
    decide (r.modified < replaceMinuteSecondZero now) &&
    decide (r.cid ≠ CELLID_LAC) && decide (r.lat ≠ Option.none)

/-- The full hour an instant falls in (start of its hour), used to state
the spec's "[previous full hour, current full hour)" window. -/
def currentFullHour (t : Int) : Int := t - t % MICROS_PER_HOUR

/-- The header test of `import_stations` (tasks.py line 229):
`'radio' in row.values()`. -/
def headerShape (r : ExtRow) : Bool :=
  r.any (fun p => decide (p.2 = Val.str "radio"))

/-- The lines the reader loop of `import_stations` passes to `make_dict`,
given the `first` flag (tasks.py lines 226-231): a line is skipped exactly
when `first` is still true and the line matches the header shape, and only
then is `first` cleared. -/
def selectDataLines : List ExtRow → Bool → List ExtRow
  | [], _ => []
  | r :: rs, first =>
    if first && headerShape r then selectDataLines rs false
    else r :: selectDataLines rs first

/-- Modelled from the spec: the natural key of a station record (glossary:
radio type plus mcc/mnc/lac/cid), the unique key of the `ocid_cell` table
(`ichnaea.models` is not under `src/`).  `psc` is not part of the key: the
upsert's `ON DUPLICATE KEY UPDATE` clause overwrites it. -/
def natKey (d : CellRecord) : Int × Int × Int × Int × Int :=
  (d.radio, d.mcc, d.mnc, d.lac, d.cid)

/-- The relational store, keyed by natural key; the table's unique key
constraint makes one row per key an invariant, so the store is a map. -/
def Store : Type := (Int × Int × Int × Int × Int) → Option CellRecord

/-- An empty store. -/
def emptyStore : Store := fun _ => Option.none

/-- The `ON DUPLICATE KEY UPDATE` clause of the importer's insert
(tasks.py lines 219-225): an existing row keeps all its columns except
`modified`, `total_measures`, `lat`, `lon`, `psc` and `range`, which take
the incoming values; a missing row is inserted as given. -/
def upsertMerge : Option CellRecord → CellRecord → CellRecord
  | Option.none, d => d
  | Option.some old, d =>
    { old with modified := d.modified, total_measures := d.total_measures,
               lat := d.lat, lon := d.lon, psc := d.psc, range := d.range }

/-- Upsert one record into the store. -/
def applyRow (s : Store) (d : CellRecord) : Store :=
  fun k => if k = natKey d then Option.some (upsertMerge (s (natKey d)) d) else s k

/-- `sess.execute(ins, rows)`: the batch is applied row by row in order. -/
def applyBatch (s : Store) (ds : List CellRecord) : Store := ds.foldl applyRow s

/-- Result of an import run: the committed store, and whether the run
finished without raising. -/
structure ImportResult where
  store : Store
  ok : Bool

/-- The reader loop of `import_stations` (tasks.py lines 226-242): skip the
first header-shaped row, parse each remaining row, append non-`None`
records to the pending batch, flush (execute + commit) at `batch` rows and
at end of file.  The source tests `len(rows) == batch` on every iteration,
appended or not, but the length can only reach `batch` right after an
append, so the test lives in the append branch here.  A raised parse
exception aborts the loop; only batches committed before it survive (the
pending rows are lost). -/
def importLoop (batch : Nat) (lines : List ExtRow) (first : Bool)
    (pending : List CellRecord) (s : Store) : ImportResult :=
  match lines with
  | [] =>
    if pending.isEmpty then { store := s, ok := true }
    else { store := applyBatch s pending, ok := true }
  | r :: rs =>
    if first && headerShape r then importLoop batch rs false pending s
    else
      match makeCellImportDict r with
      | Except.error _ => { store := s, ok := false }
      | Except.ok Option.none => importLoop batch rs first pending s
      | Except.ok (Option.some d) =>
        if (pending ++ [d]).length = batch then
          importLoop batch rs first [] (applyBatch s (pending ++ [d]))
        else importLoop batch rs first (pending ++ [d]) s

/-- `import_stations` (tasks.py lines 213-242) for the cell import: the
file is abstracted as its list of `csv.DictReader` row dicts; batch size
10000 as in the source. -/
def importStations (lines : List ExtRow) (s : Store) : ImportResult :=
  importLoop 10000 lines true [] s

/-- The records a full pass over the file would parse (header skip and
`None`-skip included): `Option.none` when some row raises. -/
def parseAll : List ExtRow → Bool → Option (List CellRecord)
  | [], _ => Option.some []
  | r :: rs, first =>
    if first && headerShape r then parseAll rs false
    else
      match makeCellImportDict r with
      | Except.error _ => Option.none
      | Except.ok Option.none => parseAll rs first
      | Except.ok (Option.some d) => (parseAll rs first).map (fun ds => d :: ds)

/-- The mutable columns of the upsert, as one tuple. -/
def mutCols (d : CellRecord) : Int × Int × Rat × Rat × Int × Int :=
  (d.modified, d.total_measures, d.lat, d.lon, d.psc, d.range)

/-- The immutable columns (everything the upsert keeps from the old row). -/
def immCols (d : CellRecord) : Int × Bool × Int × Int × Int × Int × Int :=
  (d.created, d.changeable, d.radio, d.mcc, d.mnc, d.lac, d.cid)

/-- The internal `changeable` flag a successfully imported row ends up
with (`Option.none` when the transform raises or rejects the row). -/
def importedChangeable (r : ExtRow) : Option Bool :=
  match makeCellImportDict r with
  | Except.ok (Option.some d) => Option.some d.changeable
  | _ => Option.none

/-- One upsert step on the value stored at a fixed natural key: the
per-key view of `applyRow`. -/
def upsertStep (v : Option CellRecord) (d : CellRecord) : Option CellRecord :=
  Option.some (upsertMerge v d)

/-- `upsertMerge` against an existing row. -/
def upsertVal (a d : CellRecord) : CellRecord := upsertMerge (Option.some a) d

/-! ### Shared lemmas about the codec -/

theorem ratTrunc_intCast (n : Int) : ratTrunc ((n : Int) : Rat) = n := by
  unfold ratTrunc
  simp [Rat.num_intCast, Rat.den_intCast]

theorem makeCellExportDict_some (row : CellRow) (d : ExtRow)
    (h : makeCellExportDict row = Option.some d) :
    ∃ rname, CELL_EXPORT_RADIO_NAMES.lookup (exportRadioCode row.radio) = Option.some rname ∧
      d = exportDictOf row rname := by
  unfold makeCellExportDict at h
  rcases hl : CELL_EXPORT_RADIO_NAMES.lookup (exportRadioCode row.radio) with _ | rname
  · rw [hl] at h; cases h
  · rw [hl] at h; exact ⟨rname, rfl, (Option.some.inj h).symm⟩

theorem radio_name_roundtrip (c : Int) (rname : String)
    (h : CELL_EXPORT_RADIO_NAMES.lookup c = Option.some rname) :
    (RADIO_TYPE.lookup (lowerString rname)).getD (-1) = c := by
  by_cases h0 : c = 0
  · subst h0
    obtain rfl : "GSM" = rname := Option.some.inj h
    decide
  by_cases h1 : c = 1
  · subst h1
    obtain rfl : "UMTS" = rname := Option.some.inj h
    decide
  by_cases h2 : c = 2
  · subst h2
    obtain rfl : "LTE" = rname := Option.some.inj h
    decide
  by_cases h3 : c = -1
  · subst h3
    obtain rfl : "UNKNOWN" = rname := Option.some.inj h
    decide
  exfalso
  have b0 : (c == (0 : Int)) = false := beq_eq_false_iff_ne.mpr h0
  have b1 : (c == (1 : Int)) = false := beq_eq_false_iff_ne.mpr h1
  have b2 : (c == (2 : Int)) = false := beq_eq_false_iff_ne.mpr h2
  have b3 : (c == (-1 : Int)) = false := beq_eq_false_iff_ne.mpr h3
  have hnone : CELL_EXPORT_RADIO_NAMES.lookup c = Option.none := by
    simp [CELL_EXPORT_RADIO_NAMES, RADIO_TYPE_INVERSE, upperString, List.lookup, b0, b1, b2, b3]
  rw [hnone] at h
  cases h

/-- C9: the import transform requires `radio` to be present and non-`None`:
a row whose `radio` key is absent (Python `KeyError`) or `None`
(`AttributeError` on `.lower()`) makes `make_cell_import_dict` raise, while
a row carrying only a string `radio` imports successfully with every other
field defaulted — `radio` is the only external field without a
missing-value fallback. -/
theorem import_radio_required :
    (∀ r : ExtRow,
        lookupField r "radio" = Option.none ∨ lookupField r "radio" = Option.some Val.none →
        makeCellImportDict r = Except.error ()) ∧
    (∀ s : String, makeCellImportDict [("radio", Val.str s)] =
        Except.ok (Option.some
          { created := 0, modified := 0, lat := -255, lon := -255,
            radio := (RADIO_TYPE.lookup (lowerString s)).getD (-1),
            mcc := -1, mnc := -1, lac := -1, cid := -1, psc := -1, range := 0,
            total_measures := -1, changeable := true })) := by
  constructor
  · intro r hr
    unfold makeCellImportDict
    cases pyInt (pyDictVal r "created" (Val.int 0)) with
    | none => rfl
    | some created =>
      cases pyInt (pyDictVal r "updated" (Val.int 0)) with
      | none => rfl
      | some modified =>
        cases pyFloat (pyDictVal r "lat" (Val.int (-255))) with
        | none => rfl
        | some lat =>
          cases pyFloat (pyDictVal r "lon" (Val.int (-255))) with
          | none => rfl
          | some lon =>
            rcases hr with h | h <;> rw [h]
  · intro s
    rfl

/-- Witness for C9 at the empty row and at a minimal `radio`-only row. -/
theorem import_radio_required_witness :
    (lookupField ([] : ExtRow) "radio" = Option.none ∨
        lookupField ([] : ExtRow) "radio" = Option.some Val.none) ∧
    makeCellImportDict ([] : ExtRow) = Except.error () ∧
    makeCellImportDict [("radio", Val.str "gsm")] =
      Except.ok (Option.some
        { created := 0, modified := 0, lat := -255, lon := -255,
          radio := (RADIO_TYPE.lookup (lowerString "gsm")).getD (-1),
          mcc := -1, mnc := -1, lac := -1, cid := -1, psc := -1, range := 0,
          total_measures := -1, changeable := true }) :=
  ⟨Or.inl rfl, import_radio_required.1 [] (Or.inl rfl), import_radio_required.2 "gsm"⟩

/-- C10: the export transform emits `changeable = 1` for every record; the
stored `changeable` column is not even among the selected export columns
`CELL_COLUMN_NAMES`, so it is never consulted. -/
theorem export_changeable_constant_one :
    (∀ row d, makeCellExportDict row = Option.some d →
        lookupField d "changeable" = Option.some (Val.int 1)) ∧
    "changeable" ∉ CELL_COLUMN_NAMES := by
  refine ⟨fun row d h => ?_, by decide⟩
  obtain ⟨rname, hl, rfl⟩ := makeCellExportDict_some row d h
  rfl

/-- Witness for C10 at a concrete row. -/
theorem export_changeable_constant_one_witness :
    makeCellExportDict
        { created := 10, modified := 20, lat := Option.some 1, lon := Option.some 2,
          radio := Option.some 0, mcc := 262, mnc := 2, lac := 3, cid := 4,
          psc := Option.some 5, range := 1000, total_measures := 7 } =
      Option.some (exportDictOf
        { created := 10, modified := 20, lat := Option.some 1, lon := Option.some 2,
          radio := Option.some 0, mcc := 262, mnc := 2, lac := 3, cid := 4,
          psc := Option.some 5, range := 1000, total_measures := 7 } "GSM") ∧
    lookupField (exportDictOf
        { created := 10, modified := 20, lat := Option.some 1, lon := Option.some 2,
          radio := Option.some 0, mcc := 262, mnc := 2, lac := 3, cid := 4,
          psc := Option.some 5, range := 1000, total_measures := 7 } "GSM") "changeable" =
      Option.some (Val.int 1) :=
  ⟨by decide,
    export_changeable_constant_one.1
      { created := 10, modified := 20, lat := Option.some 1, lon := Option.some 2,
        radio := Option.some 0, mcc := 262, mnc := 2, lac := 3, cid := 4,
        psc := Option.some 5, range := 1000, total_measures := 7 }
      (exportDictOf
        { created := 10, modified := 20, lat := Option.some 1, lon := Option.some 2,
          radio := Option.some 0, mcc := 262, mnc := 2, lac := 3, cid := 4,
          psc := Option.some 5, range := 1000, total_measures := 7 } "GSM")
      (by decide)⟩

theorem exportRadioCode_getD (o : Option Int) : exportRadioCode o = o.getD (-1) := by
  cases o <;> rfl

theorem makeCellImportDict_export_shape
    (rname : String) (mcV mnV lcV ciV rgV crV upV smV : Int)
    (pscV lonV latV : Val) (psR : Int) (latR lonR : Rat)
    (hps : pyInt (if pscV = Val.str "" ∨ pscV = Val.none then Val.int (-1) else pscV) =
      Option.some psR)
    (hlat : pyFloat (if latV = Val.str "" ∨ latV = Val.none then Val.int (-255) else latV) =
      Option.some latR)
    (hlon : pyFloat (if lonV = Val.str "" ∨ lonV = Val.none then Val.int (-255) else lonV) =
      Option.some lonR) :
    makeCellImportDict
      [("changeable", Val.int 1), ("averageSignal", Val.str ""),
       ("radio", Val.str rname), ("mcc", Val.int mcV), ("mnc", Val.int mnV),
       ("lac", Val.int lcV), ("cid", Val.int ciV), ("psc", pscV),
       ("lon", lonV), ("lat", latV), ("range", Val.int rgV),
       ("created", Val.int crV), ("updated", Val.int upV), ("samples", Val.int smV)] =
    Except.ok (Option.some
      { created := crV, modified := upV, lat := latR, lon := lonR,
        radio := (RADIO_TYPE.lookup (lowerString rname)).getD (-1),
        mcc := mcV, mnc := mnV, lac := lcV, cid := ciV, psc := psR,
        range := ratTrunc ((rgV : Int) : Rat), total_measures := smV,
        changeable := true }) := by
  have hps' : pyInt (pyDictVal
      [("changeable", Val.int 1), ("averageSignal", Val.str ""),
       ("radio", Val.str rname), ("mcc", Val.int mcV), ("mnc", Val.int mnV),
       ("lac", Val.int lcV), ("cid", Val.int ciV), ("psc", pscV),
       ("lon", lonV), ("lat", latV), ("range", Val.int rgV),
       ("created", Val.int crV), ("updated", Val.int upV), ("samples", Val.int smV)]
      "psc" (Val.int (-1))) = Option.some psR := hps
  have hlat' : pyFloat (pyDictVal
      [("changeable", Val.int 1), ("averageSignal", Val.str ""),
       ("radio", Val.str rname), ("mcc", Val.int mcV), ("mnc", Val.int mnV),
       ("lac", Val.int lcV), ("cid", Val.int ciV), ("psc", pscV),
       ("lon", lonV), ("lat", latV), ("range", Val.int rgV),
       ("created", Val.int crV), ("updated", Val.int upV), ("samples", Val.int smV)]
      "lat" (Val.int (-255))) = Option.some latR := hlat
  have hlon' : pyFloat (pyDictVal
      [("changeable", Val.int 1), ("averageSignal", Val.str ""),
       ("radio", Val.str rname), ("mcc", Val.int mcV), ("mnc", Val.int mnV),
       ("lac", Val.int lcV), ("cid", Val.int ciV), ("psc", pscV),
       ("lon", lonV), ("lat", latV), ("range", Val.int rgV),
       ("created", Val.int crV), ("updated", Val.int upV), ("samples", Val.int smV)]
      "lon" (Val.int (-255))) = Option.some lonR := hlon
  unfold makeCellImportDict
  rw [hps', hlat', hlon']
  rfl

/-- C1: codec round-trip — for every record row the export transform
accepts (its radio code is mapped), feeding the exported dict back through
the import transform reproduces every populated field exactly and
substitutes the documented sentinels for the absent ones: `-255` for a
`NULL` `lat`/`lon`, `-1` for a `NULL` (or `-1`) `psc` and for a `NULL`
radio code; `changeable`, absent from the selected columns, comes back as
its default `true`. -/
theorem cell_export_import_roundtrip (row : CellRow) (e : ExtRow)
    (h : makeCellExportDict row = Option.some e) :
    makeCellImportDict e = Except.ok (Option.some
      { created := row.created, modified := row.modified,
        lat := row.lat.getD (-255), lon := row.lon.getD (-255),
        radio := row.radio.getD (-1),
        mcc := row.mcc, mnc := row.mnc, lac := row.lac, cid := row.cid,
        psc := row.psc.getD (-1), range := row.range,
        total_measures := row.total_measures, changeable := true }) := by
  obtain ⟨rname, hl, rfl⟩ := makeCellExportDict_some row e h
  have hradio : (RADIO_TYPE.lookup (lowerString rname)).getD (-1) = row.radio.getD (-1) := by
    rw [radio_name_roundtrip _ rname hl, exportRadioCode_getD]
  rcases row with ⟨cr, mo, la, lo, ra, mc, mn, lc, ci, ps, rg, tm⟩
  have hps : pyInt (if exportPscVal ps = Val.str "" ∨ exportPscVal ps = Val.none
        then Val.int (-1) else exportPscVal ps) = Option.some (ps.getD (-1)) := by
    rcases ps with _ | p
    · rfl
    · by_cases hp : p = -1
      · subst hp; rfl
      · simp only [exportPscVal, if_neg hp]
        rfl
  have hlat : pyFloat (if optRatVal la = Val.str "" ∨ optRatVal la = Val.none
        then Val.int (-255) else optRatVal la) = Option.some (la.getD (-255)) := by
    rcases la with _ | ql <;> rfl
  have hlon : pyFloat (if optRatVal lo = Val.str "" ∨ optRatVal lo = Val.none
        then Val.int (-255) else optRatVal lo) = Option.some (lo.getD (-255)) := by
    rcases lo with _ | qo <;> rfl
  have hmain := makeCellImportDict_export_shape rname mc mn lc ci rg cr mo tm
    (exportPscVal ps) (optRatVal lo) (optRatVal la)
    (ps.getD (-1)) (la.getD (-255)) (lo.getD (-255)) hps hlat hlon
  exact hmain.trans (by rw [ratTrunc_intCast, hradio])

/-- Witness for C1 at a concrete populated row. -/
theorem cell_export_import_roundtrip_witness :
    makeCellExportDict
        { created := 10, modified := 20, lat := Option.some 1, lon := Option.some 2,
          radio := Option.some 0, mcc := 262, mnc := 2, lac := 3, cid := 4,
          psc := Option.some 5, range := 1000, total_measures := 7 } =
      Option.some (exportDictOf
        { created := 10, modified := 20, lat := Option.some 1, lon := Option.some 2,
          radio := Option.some 0, mcc := 262, mnc := 2, lac := 3, cid := 4,
          psc := Option.some 5, range := 1000, total_measures := 7 } "GSM") ∧
    makeCellImportDict (exportDictOf
        { created := 10, modified := 20, lat := Option.some 1, lon := Option.some 2,
          radio := Option.some 0, mcc := 262, mnc := 2, lac := 3, cid := 4,
          psc := Option.some 5, range := 1000, total_measures := 7 } "GSM") =
      Except.ok (Option.some
        { created := 10, modified := 20, lat := 1, lon := 2, radio := 0,
          mcc := 262, mnc := 2, lac := 3, cid := 4, psc := 5, range := 1000,
          total_measures := 7, changeable := true }) :=
  ⟨by decide,
    cell_export_import_roundtrip
      { created := 10, modified := 20, lat := Option.some 1, lon := Option.some 2,
        radio := Option.some 0, mcc := 262, mnc := 2, lac := 3, cid := 4,
        psc := Option.some 5, range := 1000, total_measures := 7 }
      (exportDictOf
        { created := 10, modified := 20, lat := Option.some 1, lon := Option.some 2,
          radio := Option.some 0, mcc := 262, mnc := 2, lac := 3, cid := 4,
          psc := Option.some 5, range := 1000, total_measures := 7 } "GSM")
      (by decide)⟩

/-- C5: the hourly export window — when the invocation time has no
sub-second component (as `util.utcnow()`, modelled from the spec's
whole-second UTC instants, produces), the selection predicate of
`export_modified_cells` admits exactly the rows with `modified` in the
half-open window [previous full hour, current full hour), excluding rows
whose `cid` is the LAC-aggregate sentinel or whose `lat` is `NULL`. -/
theorem hourly_export_window (now : Int) (h : now % MICROS_PER_SECOND = 0) (r : CellDbRow) :
    hourlyExportCond now r = true ↔
      (currentFullHour now - MICROS_PER_HOUR ≤ r.modified ∧
        r.modified < currentFullHour now ∧
        r.cid ≠ CELLID_LAC ∧ r.lat ≠ Option.none) := by
  have hrep : replaceMinuteSecondZero now = currentFullHour now := by
    unfold replaceMinuteSecondZero currentFullHour
    rw [h]
    ring
  unfold hourlyExportCond
  rw [hrep]
  simp [Bool.and_eq_true, decide_eq_true_iff, and_assoc]

/-- Witness for C5 at a whole-second invocation time and a row inside the
window. -/
theorem hourly_export_window_witness :
    (7200000000 : Int) % MICROS_PER_SECOND = 0 ∧
    (hourlyExportCond 7200000000 { modified := 3600000000, cid := 5, lat := Option.some 1 } = true ↔
      (currentFullHour 7200000000 - MICROS_PER_HOUR ≤ (3600000000 : Int) ∧
        (3600000000 : Int) < currentFullHour 7200000000 ∧
        (5 : Int) ≠ CELLID_LAC ∧ (Option.some 1 : Option Rat) ≠ Option.none)) :=
  ⟨by decide,
    hourly_export_window 7200000000 (by decide)
      { modified := 3600000000, cid := 5, lat := Option.some 1 }⟩

theorem makeCellImportDict_ok_fields (r : ExtRow) (rec : CellRecord)
    (h : makeCellImportDict r = Except.ok (Option.some rec)) :
    pyFloat (pyDictVal r "lat" (Val.int (-255))) = Option.some rec.lat ∧
    pyFloat (pyDictVal r "lon" (Val.int (-255))) = Option.some rec.lon ∧
    pyInt (pyDictVal r "psc" (Val.int (-1))) = Option.some rec.psc ∧
    pyBool (pyDictVal r "changeable" (Val.bool true)) = rec.changeable := by
  unfold makeCellImportDict at h
  repeat' split at h
  any_goals exact Except.noConfusion h
  have h2 : _ = rec := Option.some.inj (Except.ok.inj h)
  subst h2
  simp_all

theorem pyDictVal_missing (r : ExtRow) (k : String) (dflt : Val)
    (h : missingOrEmptyField r k = true) : pyDictVal r k dflt = dflt := by
  unfold missingOrEmptyField at h
  unfold pyDictVal
  rcases hl : lookupField r k with _ | v
  · rfl
  · rw [hl] at h
    have hv : v = Val.str "" ∨ v = Val.none := by simpa using h
    simp [hv]

/-- C6: sentinel handling — a row imported with missing/empty `lat` or
`lon` gets the internal sentinel `-255.0`, a missing/empty `psc` gets
`-1`; and a record exported with `psc` `NULL` or `-1` carries the empty
string in its `psc`/`unit` field. -/
theorem sentinel_handling :
    (∀ r rec, makeCellImportDict r = Except.ok (Option.some rec) →
        (missingOrEmptyField r "lat" = true → rec.lat = -255) ∧
        (missingOrEmptyField r "lon" = true → rec.lon = -255) ∧
        (missingOrEmptyField r "psc" = true → rec.psc = -1)) ∧
    (∀ row d, makeCellExportDict row = Option.some d →
        (row.psc = Option.none ∨ row.psc = Option.some (-1)) →
        lookupField d "psc" = Option.some (Val.str "")) := by
  constructor
  · intro r rec h
    obtain ⟨hlat, hlon, hpsc, _⟩ := makeCellImportDict_ok_fields r rec h
    refine ⟨fun hm => ?_, fun hm => ?_, fun hm => ?_⟩
    · rw [pyDictVal_missing r "lat" _ hm] at hlat
      exact (Option.some.inj hlat).symm
    · rw [pyDictVal_missing r "lon" _ hm] at hlon
      exact (Option.some.inj hlon).symm
    · rw [pyDictVal_missing r "psc" _ hm] at hpsc
      exact (Option.some.inj hpsc).symm
  · intro row d h hpsc
    obtain ⟨rname, hl, rfl⟩ := makeCellExportDict_some row d h
    have hget : lookupField (exportDictOf row rname) "psc" =
        Option.some (exportPscVal row.psc) := rfl
    rw [hget]
    rcases hpsc with hp | hp <;> rw [hp] <;> decide

/-- Witness for C6: a row with `lat`, `lon`, `psc` all absent imports to
the sentinels, and a record with `psc = -1` exports a blank `psc`. -/
theorem sentinel_handling_witness :
    ({ created := 0, modified := 0, lat := -255, lon := -255, radio := 0,
       mcc := -1, mnc := -1, lac := -1, cid := -1, psc := -1, range := 0,
       total_measures := -1, changeable := true } : CellRecord).lat = -255 ∧
    ({ created := 0, modified := 0, lat := -255, lon := -255, radio := 0,
       mcc := -1, mnc := -1, lac := -1, cid := -1, psc := -1, range := 0,
       total_measures := -1, changeable := true } : CellRecord).psc = -1 ∧
    lookupField (exportDictOf
        { created := 1, modified := 2, lat := Option.some 3, lon := Option.some 4,
          radio := Option.some 1, mcc := 5, mnc := 6, lac := 7, cid := 8,
          psc := Option.some (-1), range := 9, total_measures := 11 } "UMTS") "psc" =
      Option.some (Val.str "") :=
  ⟨(sentinel_handling.1 [("radio", Val.str "gsm")]
      { created := 0, modified := 0, lat := -255, lon := -255, radio := 0,
        mcc := -1, mnc := -1, lac := -1, cid := -1, psc := -1, range := 0,
        total_measures := -1, changeable := true } (by decide)).1 (by decide),
   (sentinel_handling.1 [("radio", Val.str "gsm")]
      { created := 0, modified := 0, lat := -255, lon := -255, radio := 0,
        mcc := -1, mnc := -1, lac := -1, cid := -1, psc := -1, range := 0,
        total_measures := -1, changeable := true } (by decide)).2.2 (by decide),
   sentinel_handling.2
      { created := 1, modified := 2, lat := Option.some 3, lon := Option.some 4,
        radio := Option.some 1, mcc := 5, mnc := 6, lac := 7, cid := 8,
        psc := Option.some (-1), range := 9, total_measures := 11 }
      (exportDictOf
        { created := 1, modified := 2, lat := Option.some 3, lon := Option.some 4,
          radio := Option.some 1, mcc := 5, mnc := 6, lac := 7, cid := 8,
          psc := Option.some (-1), range := 9, total_measures := 11 } "UMTS")
      (by decide) (Or.inr rfl)⟩

/-- C7 counterexample: the claim predicts that `changeable = "0"` imports
as internal `false`; the code applies Python truthiness (`bool(val(...))`),
and `bool("0")` is `True`, so the row imports with `changeable = true`,
not `false`. -/
theorem changeable_zero_imports_true_cex :
    importedChangeable [("radio", Val.str "gsm"), ("changeable", Val.str "0")] =
      Option.some true ∧
    importedChangeable [("radio", Val.str "gsm"), ("changeable", Val.str "0")] ≠
      Option.some false := by
  constructor <;> decide

/-- C7 amended: the import reads `changeable` by Python truthiness, not by
1/0 parsing — every non-empty string value (so `"1"`, but also `"0"`)
yields internal `changeable = true`, and a missing or empty value defaults
to `true`. -/
theorem changeable_truthiness (r : ExtRow) (rec : CellRecord)
    (h : makeCellImportDict r = Except.ok (Option.some rec)) :
    (∀ s : String, lookupField r "changeable" = Option.some (Val.str s) → s ≠ "" →
        rec.changeable = true) ∧
    (missingOrEmptyField r "changeable" = true → rec.changeable = true) := by
  obtain ⟨_, _, _, hch⟩ := makeCellImportDict_ok_fields r rec h
  constructor
  · intro s hs hne
    rw [← hch]
    unfold pyDictVal
    rw [hs]
    simp [pyBool, hne]
  · intro hm
    rw [← hch, pyDictVal_missing r "changeable" _ hm]
    rfl

/-- Witness for C7's amended claim at `changeable = "0"` and at a row with
the field absent. -/
theorem changeable_truthiness_witness :
    makeCellImportDict [("radio", Val.str "gsm"), ("changeable", Val.str "0")] =
      Except.ok (Option.some
        { created := 0, modified := 0, lat := -255, lon := -255, radio := 0,
          mcc := -1, mnc := -1, lac := -1, cid := -1, psc := -1, range := 0,
          total_measures := -1, changeable := true }) ∧
    ({ created := 0, modified := 0, lat := -255, lon := -255, radio := 0,
       mcc := -1, mnc := -1, lac := -1, cid := -1, psc := -1, range := 0,
       total_measures := -1, changeable := true } : CellRecord).changeable = true :=
  ⟨by decide,
    (changeable_truthiness [("radio", Val.str "gsm"), ("changeable", Val.str "0")]
      { created := 0, modified := 0, lat := -255, lon := -255, radio := 0,
        mcc := -1, mnc := -1, lac := -1, cid := -1, psc := -1, range := 0,
        total_measures := -1, changeable := true } (by decide)).1 "0" (by decide) (by decide)⟩

theorem selectDataLines_false (F : List ExtRow) : selectDataLines F false = F := by
  induction F with
  | nil => rfl
  | cons r rs ih => simp [selectDataLines, ih]

theorem selectDataLines_eraseP (F : List ExtRow) :
    selectDataLines F true = F.eraseP headerShape := by
  induction F with
  | nil => rfl
  | cons r rs ih =>
    by_cases hr : headerShape r = true
    · simp [selectDataLines, hr, List.eraseP_cons, selectDataLines_false]
    · simp [selectDataLines, hr, List.eraseP_cons, ih]

theorem importLoop_selectDataLines (b : Nat) (lines : List ExtRow) (first : Bool)
    (pending : List CellRecord) (s : Store) :
    importLoop b lines first pending s =
      importLoop b (selectDataLines lines first) false pending s := by
  induction lines generalizing first pending s with
  | nil => rfl
  | cons r rs ih =>
    by_cases hr : (first && headerShape r) = true
    · have h1 : importLoop b (r :: rs) first pending s = importLoop b rs false pending s := by
        simp only [importLoop, hr, if_true]
      have h2 : selectDataLines (r :: rs) first = selectDataLines rs false := by
        simp only [selectDataLines, hr, if_true]
      rw [h1, h2]
      exact ih false pending s
    · have h2 : selectDataLines (r :: rs) first = r :: selectDataLines rs first := by
        simp only [selectDataLines, if_neg hr]
      rw [h2]
      unfold importLoop
      rw [if_neg hr, if_neg (by simp : ¬(false && headerShape r) = true)]
      cases makeCellImportDict r with
      | error e => rfl
      | ok od =>
        cases od with
        | none => exact ih first pending s
        | some d =>
          show (if (pending ++ [d]).length = b then
                  importLoop b rs first [] (applyBatch s (pending ++ [d]))
                else importLoop b rs first (pending ++ [d]) s) =
              (if (pending ++ [d]).length = b then
                  importLoop b (selectDataLines rs first) false [] (applyBatch s (pending ++ [d]))
                else importLoop b (selectDataLines rs first) false (pending ++ [d]) s)
          by_cases hlen : (pending ++ [d]).length = b
          · rw [if_pos hlen, if_pos hlen]
            exact ih first [] (applyBatch s (pending ++ [d]))
          · rw [if_neg hlen, if_neg hlen]
            exact ih first (pending ++ [d]) s

/-- C4 counterexample: the claim says only the first line is inspected for
the header shape and every later line is always data.  On a file whose
first line is a data line (no cell equals `"radio"`) and whose second line
is header-shaped, the importer skips the second line: the `first` flag is
only cleared when a header-shaped row is found, so the check keeps
applying beyond line one. -/
theorem header_after_first_line_cex :
    headerShape [("radio", Val.str "GSM")] = false ∧
    selectDataLines [[("radio", Val.str "GSM")], [("radio", Val.str "radio")]] true ≠
      [[("radio", Val.str "GSM")], [("radio", Val.str "radio")]] ∧
    selectDataLines [[("radio", Val.str "GSM")], [("radio", Val.str "radio")]] true =
      [[("radio", Val.str "GSM")]] := by
  exact ⟨by decide, by decide, by decide⟩

/-- C4 amended: the reader loop drops exactly the first header-shaped line
of the file, wherever it occurs (every line before it and after it is
treated as data); in particular a header-shaped first line is skipped and
a file with no header-shaped line is taken whole. -/
theorem header_skip_first_match (F : List ExtRow) (S : Store) :
    selectDataLines F true = F.eraseP headerShape ∧
    importStations F S = importLoop 10000 (F.eraseP headerShape) false [] S := by
  refine ⟨selectDataLines_eraseP F, ?_⟩
  rw [← selectDataLines_eraseP F]
  exact importLoop_selectDataLines 10000 F true [] S

theorem importLoop_nil (b : Nat) (first : Bool) (pending : List CellRecord) (s : Store) :
    importLoop b [] first pending s =
      if pending.isEmpty then { store := s, ok := true }
      else { store := applyBatch s pending, ok := true } := rfl

theorem importLoop_cons_skip (b : Nat) (r : ExtRow) (rs : List ExtRow) (first : Bool)
    (pending : List CellRecord) (s : Store) (h : (first && headerShape r) = true) :
    importLoop b (r :: rs) first pending s = importLoop b rs false pending s := by
  simp only [importLoop, h, if_true]

theorem importLoop_cons_error (b : Nat) (r : ExtRow) (rs : List ExtRow) (first : Bool)
    (pending : List CellRecord) (s : Store) (h : ¬(first && headerShape r) = true)
    (he : makeCellImportDict r = Except.error ()) :
    importLoop b (r :: rs) first pending s = { store := s, ok := false } := by
  simp only [importLoop, if_neg h, he]

theorem importLoop_cons_none (b : Nat) (r : ExtRow) (rs : List ExtRow) (first : Bool)
    (pending : List CellRecord) (s : Store) (h : ¬(first && headerShape r) = true)
    (hn : makeCellImportDict r = Except.ok Option.none) :
    importLoop b (r :: rs) first pending s = importLoop b rs first pending s := by
  simp only [importLoop, if_neg h, hn]

theorem importLoop_cons_some (b : Nat) (r : ExtRow) (rs : List ExtRow) (first : Bool)
    (pending : List CellRecord) (s : Store) (d : CellRecord)
    (h : ¬(first && headerShape r) = true)
    (hd : makeCellImportDict r = Except.ok (Option.some d)) :
    importLoop b (r :: rs) first pending s =
      if (pending ++ [d]).length = b then
        importLoop b rs first [] (applyBatch s (pending ++ [d]))
      else importLoop b rs first (pending ++ [d]) s := by
  simp only [importLoop, if_neg h, hd]

theorem importLoop_stops_at_error (b : Nat) (L2 L2' : List ExtRow) (bad : ExtRow)
    (h2 : makeCellImportDict bad = Except.error ()) (h3 : headerShape bad = false) :
    ∀ (L1 : List ExtRow), (∀ r ∈ L1, makeCellImportDict r ≠ Except.error ()) →
    ∀ (first : Bool) (pending : List CellRecord) (s : Store),
      importLoop b (L1 ++ bad :: L2) first pending s =
        importLoop b (L1 ++ bad :: L2') first pending s ∧
      (importLoop b (L1 ++ bad :: L2) first pending s).ok = false := by
  intro L1
  induction L1 with
  | nil =>
    intro _ first pending s
    have hnb : ¬(first && headerShape bad) = true := by simp [h3]
    rw [List.nil_append, List.nil_append,
      importLoop_cons_error b bad L2 first pending s hnb h2,
      importLoop_cons_error b bad L2' first pending s hnb h2]
    exact ⟨rfl, rfl⟩
  | cons r L1' ih =>
    intro h1 first pending s
    have hr1 : makeCellImportDict r ≠ Except.error () := h1 r (List.mem_cons_self r L1')
    have hmem : ∀ x ∈ L1', makeCellImportDict x ≠ Except.error () :=
      fun x hx => h1 x (List.mem_cons_of_mem r hx)
    rw [List.cons_append, List.cons_append]
    by_cases hskip : (first && headerShape r) = true
    · rw [importLoop_cons_skip _ _ _ _ _ _ hskip, importLoop_cons_skip _ _ _ _ _ _ hskip]
      exact ih hmem false pending s
    · cases hmr : makeCellImportDict r with
      | error e => exact absurd hmr hr1
      | ok od =>
        cases od with
        | none =>
          rw [importLoop_cons_none _ _ _ _ _ _ hskip hmr,
            importLoop_cons_none _ _ _ _ _ _ hskip hmr]
          exact ih hmem first pending s
        | some d =>
          rw [importLoop_cons_some _ _ _ _ _ _ _ hskip hmr,
            importLoop_cons_some _ _ _ _ _ _ _ hskip hmr]
          by_cases hlen : (pending ++ [d]).length = b
          · rw [if_pos hlen, if_pos hlen]
            exact ih hmem first [] (applyBatch s (pending ++ [d]))
          · rw [if_neg hlen, if_neg hlen]
            exact ih hmem first (pending ++ [d]) s

/-- C3 counterexample: on a file of a good row, a row with non-numeric
`range`, and another good row, the import is not row-local — the
`ValueError` propagates out of `make_cell_import_dict`, the run reports
failure, the following good row is never applied (its key is absent from
the store), and even the preceding good row is lost with the uncommitted
pending batch.  The claim predicts the bad row is skipped and the rest of
the file processed. -/
theorem import_parse_failure_aborts_cex :
    makeCellImportDict
        [("radio", Val.str "gsm"), ("mcc", Val.str "262"), ("range", Val.str "abc")] =
      Except.error () ∧
    (importStations
        [[("radio", Val.str "gsm"), ("mcc", Val.str "262"), ("mnc", Val.str "1"),
          ("lac", Val.str "2"), ("cid", Val.str "3")],
         [("radio", Val.str "gsm"), ("mcc", Val.str "262"), ("range", Val.str "abc")],
         [("radio", Val.str "umts"), ("mcc", Val.str "310"), ("mnc", Val.str "5"),
          ("lac", Val.str "7"), ("cid", Val.str "9")]] emptyStore).ok = false ∧
    (importStations
        [[("radio", Val.str "gsm"), ("mcc", Val.str "262"), ("mnc", Val.str "1"),
          ("lac", Val.str "2"), ("cid", Val.str "3")],
         [("radio", Val.str "gsm"), ("mcc", Val.str "262"), ("range", Val.str "abc")],
         [("radio", Val.str "umts"), ("mcc", Val.str "310"), ("mnc", Val.str "5"),
          ("lac", Val.str "7"), ("cid", Val.str "9")]] emptyStore).store
      (1, 310, 5, 7, 9) = Option.none ∧
    (importStations
        [[("radio", Val.str "gsm"), ("mcc", Val.str "262"), ("mnc", Val.str "1"),
          ("lac", Val.str "2"), ("cid", Val.str "3")],
         [("radio", Val.str "gsm"), ("mcc", Val.str "262"), ("range", Val.str "abc")],
         [("radio", Val.str "umts"), ("mcc", Val.str "310"), ("mnc", Val.str "5"),
          ("lac", Val.str "7"), ("cid", Val.str "9")]] emptyStore).store
      (0, 262, 1, 2, 3) = Option.none := by
  exact ⟨by decide, by decide, by decide, by decide⟩

/-- C3 amended: a row whose numeric field fails to parse aborts the import
instead of being skipped — the run fails, and the rows after the raising
row are never examined (the outcome is the same whatever follows it); only
rows the transform itself maps to `None` are skipped locally. -/
theorem import_parse_failure_aborts (L1 L2 L2' : List ExtRow) (S : Store) (bad : ExtRow)
    (h1 : ∀ r ∈ L1, makeCellImportDict r ≠ Except.error ())
    (h2 : makeCellImportDict bad = Except.error ())
    (h3 : headerShape bad = false) :
    importStations (L1 ++ bad :: L2) S = importStations (L1 ++ bad :: L2') S ∧
    (importStations (L1 ++ bad :: L2) S).ok = false :=
  importLoop_stops_at_error 10000 L2 L2' bad h2 h3 L1 h1 true [] S

/-- Witness for the amended C3 at a concrete file. -/
theorem import_parse_failure_aborts_witness :
    (∀ r ∈ [[("radio", Val.str "gsm"), ("mcc", Val.str "262"), ("mnc", Val.str "1"),
        ("lac", Val.str "2"), ("cid", Val.str "3")]],
      makeCellImportDict r ≠ Except.error ()) ∧
    (importStations
        ([[("radio", Val.str "gsm"), ("mcc", Val.str "262"), ("mnc", Val.str "1"),
           ("lac", Val.str "2"), ("cid", Val.str "3")]] ++
          [("radio", Val.str "gsm"), ("mcc", Val.str "262"), ("range", Val.str "abc")] ::
            [[("radio", Val.str "umts"), ("mcc", Val.str "310")]]) emptyStore =
      importStations
        ([[("radio", Val.str "gsm"), ("mcc", Val.str "262"), ("mnc", Val.str "1"),
           ("lac", Val.str "2"), ("cid", Val.str "3")]] ++
          [("radio", Val.str "gsm"), ("mcc", Val.str "262"), ("range", Val.str "abc")] ::
            ([] : List ExtRow)) emptyStore) ∧
    (importStations
        ([[("radio", Val.str "gsm"), ("mcc", Val.str "262"), ("mnc", Val.str "1"),
           ("lac", Val.str "2"), ("cid", Val.str "3")]] ++
          [("radio", Val.str "gsm"), ("mcc", Val.str "262"), ("range", Val.str "abc")] ::
            [[("radio", Val.str "umts"), ("mcc", Val.str "310")]]) emptyStore).ok = false := by
  refine ⟨by decide, ?_⟩
  exact import_parse_failure_aborts
    [[("radio", Val.str "gsm"), ("mcc", Val.str "262"), ("mnc", Val.str "1"),
      ("lac", Val.str "2"), ("cid", Val.str "3")]]
    [[("radio", Val.str "umts"), ("mcc", Val.str "310")]] []
    emptyStore
    [("radio", Val.str "gsm"), ("mcc", Val.str "262"), ("range", Val.str "abc")]
    (by decide) (by decide) (by decide)

theorem exportPage_mem (rows : List CellRow) (ds : List ExtRow)
    (h : exportPage rows = Option.some ds) :
    ∀ d ∈ ds, ∃ row, makeCellExportDict row = Option.some d := by
  induction rows generalizing ds with
  | nil =>
    obtain rfl : [] = ds := Option.some.inj h
    intro d hd
    cases hd
  | cons row rows ih =>
    intro d hd
    cases hf : makeCellExportDict row with
    | none =>
      simp only [exportPage, hf] at h
      exact Option.noConfusion h
    | some d0 =>
      simp only [exportPage, hf] at h
      cases hrest : exportPage rows with
      | none => rw [hrest] at h; cases h
      | some ds2 =>
        rw [hrest] at h
        obtain rfl : d0 :: ds2 = ds := Option.some.inj h
        rcases List.mem_cons.mp hd with rfl | hd2
        · exact ⟨row, hf⟩
        · exact ih ds2 hrest d hd2

theorem writePages_lines (fuel : Nat) (T : List CellRow) (offset : Nat) :
    ∀ l ∈ (writePages fuel T offset).1,
      ∃ row d, makeCellExportDict row = Option.some d ∧ l = dictWriterLine d := by
  induction fuel generalizing offset with
  | zero =>
    intro l hl
    cases hl
  | succ n ih =>
    intro l hl
    by_cases hpage : (T.drop offset).take 10000 = []
    · rw [writePages, if_pos hpage] at hl
      cases hl
    · cases hm : exportPage ((T.drop offset).take 10000) with
      | none =>
        rw [writePages, if_neg hpage] at hl
        rw [hm] at hl
        cases hl
      | some ds =>
        rw [writePages, if_neg hpage] at hl
        rw [hm] at hl
        rcases List.mem_append.mp hl with hmap | hrest
        · obtain ⟨d, hd, rfl⟩ := List.mem_map.mp hmap
          obtain ⟨row, hrow⟩ := exportPage_mem _ ds hm d hd
          exact ⟨row, d, hrow, rfl⟩
        · exact ih (offset + 10000) l hrest

theorem export_radio_name_ne (c : Int) (rname : String)
    (h : CELL_EXPORT_RADIO_NAMES.lookup c = Option.some rname) : rname ≠ "radio" := by
  by_cases h0 : c = 0
  · subst h0
    obtain rfl : "GSM" = rname := Option.some.inj h
    decide
  by_cases h1 : c = 1
  · subst h1
    obtain rfl : "UMTS" = rname := Option.some.inj h
    decide
  by_cases h2 : c = 2
  · subst h2
    obtain rfl : "LTE" = rname := Option.some.inj h
    decide
  by_cases h3 : c = -1
  · subst h3
    obtain rfl : "UNKNOWN" = rname := Option.some.inj h
    decide
  exfalso
  have b0 : (c == (0 : Int)) = false := beq_eq_false_iff_ne.mpr h0
  have b1 : (c == (1 : Int)) = false := beq_eq_false_iff_ne.mpr h1
  have b2 : (c == (2 : Int)) = false := beq_eq_false_iff_ne.mpr h2
  have b3 : (c == (-1 : Int)) = false := beq_eq_false_iff_ne.mpr h3
  have hnone : CELL_EXPORT_RADIO_NAMES.lookup c = Option.none := by
    simp [CELL_EXPORT_RADIO_NAMES, RADIO_TYPE_INVERSE, upperString, List.lookup, b0, b1, b2, b3]
  rw [hnone] at h
  cases h

theorem export_line_ne_header (row : CellRow) (d : ExtRow)
    (h : makeCellExportDict row = Option.some d) : dictWriterLine d ≠ headerLine := by
  obtain ⟨rname, hl, rfl⟩ := makeCellExportDict_some row d h
  have hne := export_radio_name_ne _ rname hl
  intro hcontra
  have h0 : (dictWriterLine (exportDictOf row rname)).head? = Option.some (Val.str rname) := rfl
  have h1 : headerLine.head? = Option.some (Val.str "radio") := rfl
  rw [hcontra, h1] at h0
  exact hne (Val.str.inj (Option.some.inj h0)).symm

/-- C8: export file structure — for every row source (the empty one
included, and also when a page raises mid-way), `write_stations_to_csv`
emits the header row exactly once, and it is the first line of the file,
before any data row. -/
theorem export_header_exactly_once (T : List CellRow) :
    (writeStationsToCsv T).1.head? = Option.some headerLine ∧
    (writeStationsToCsv T).1.count headerLine = 1 := by
  constructor
  · rfl
  · have hnot : headerLine ∉ (writePages (T.length + 1) T 0).1 := by
      intro hmem
      obtain ⟨row, d, hrow, heq⟩ := writePages_lines (T.length + 1) T 0 headerLine hmem
      exact export_line_ne_header row d hrow heq.symm
    show (headerLine :: (writePages (T.length + 1) T 0).1).count headerLine = 1
    rw [List.count_cons_self, List.count_eq_zero.mpr hnot]

theorem parseAll_cons_skip (r : ExtRow) (rs : List ExtRow) (first : Bool)
    (h : (first && headerShape r) = true) :
    parseAll (r :: rs) first = parseAll rs false := by
  simp only [parseAll, h, if_true]

theorem parseAll_cons_error (r : ExtRow) (rs : List ExtRow) (first : Bool)
    (h : ¬(first && headerShape r) = true)
    (he : makeCellImportDict r = Except.error ()) :
    parseAll (r :: rs) first = Option.none := by
  simp only [parseAll, if_neg h, he]

theorem parseAll_cons_none (r : ExtRow) (rs : List ExtRow) (first : Bool)
    (h : ¬(first && headerShape r) = true)
    (hn : makeCellImportDict r = Except.ok Option.none) :
    parseAll (r :: rs) first = parseAll rs first := by
  simp only [parseAll, if_neg h, hn]

theorem parseAll_cons_some (r : ExtRow) (rs : List ExtRow) (first : Bool) (d : CellRecord)
    (h : ¬(first && headerShape r) = true)
    (hd : makeCellImportDict r = Except.ok (Option.some d)) :
    parseAll (r :: rs) first = (parseAll rs first).map (fun ds => d :: ds) := by
  simp only [parseAll, if_neg h, hd]

theorem importLoop_of_parseAll (b : Nat) :
    ∀ (lines : List ExtRow) (first : Bool) (ds : List CellRecord),
      parseAll lines first = Option.some ds →
      ∀ (pending : List CellRecord) (s : Store),
        importLoop b lines first pending s =
          { store := (pending ++ ds).foldl applyRow s, ok := true } := by
  intro lines
  induction lines with
  | nil =>
    intro first ds h pending s
    obtain rfl : [] = ds := Option.some.inj h
    rw [importLoop_nil]
    by_cases hp : pending.isEmpty
    · rw [if_pos hp]
      obtain rfl : pending = [] := List.isEmpty_iff.mp hp
      rfl
    · rw [if_neg hp]
      simp [applyBatch]
  | cons r rs ih =>
    intro first ds h pending s
    by_cases hskip : (first && headerShape r) = true
    · rw [parseAll_cons_skip r rs first hskip] at h
      rw [importLoop_cons_skip b r rs first pending s hskip]
      exact ih false ds h pending s
    · cases hmr : makeCellImportDict r with
      | error e =>
        rw [parseAll_cons_error r rs first hskip hmr] at h
        cases h
      | ok od =>
        cases od with
        | none =>
          rw [parseAll_cons_none r rs first hskip hmr] at h
          rw [importLoop_cons_none b r rs first pending s hskip hmr]
          exact ih first ds h pending s
        | some d =>
          rw [parseAll_cons_some r rs first d hskip hmr] at h
          cases hrest : parseAll rs first with
          | none => rw [hrest] at h; cases h
          | some ds2 =>
            rw [hrest] at h
            obtain rfl : d :: ds2 = ds := Option.some.inj h
            rw [importLoop_cons_some b r rs first pending s d hskip hmr]
            by_cases hlen : (pending ++ [d]).length = b
            · rw [if_pos hlen, ih first ds2 hrest [] (applyBatch s (pending ++ [d]))]
              congr 1
              simp [applyBatch, List.foldl_append]
            · rw [if_neg hlen, ih first ds2 hrest (pending ++ [d]) s]
              congr 1
              simp [List.foldl_append]

theorem parseAll_none_importLoop (b : Nat) :
    ∀ (lines : List ExtRow) (first : Bool),
      parseAll lines first = Option.none →
      ∀ (pending : List CellRecord) (s : Store),
        (importLoop b lines first pending s).ok = false := by
  intro lines
  induction lines with
  | nil =>
    intro first h
    cases h
  | cons r rs ih =>
    intro first h pending s
    by_cases hskip : (first && headerShape r) = true
    · rw [parseAll_cons_skip r rs first hskip] at h
      rw [importLoop_cons_skip b r rs first pending s hskip]
      exact ih false h pending s
    · cases hmr : makeCellImportDict r with
      | error e =>
        rw [importLoop_cons_error b r rs first pending s hskip hmr]
      | ok od =>
        cases od with
        | none =>
          rw [parseAll_cons_none r rs first hskip hmr] at h
          rw [importLoop_cons_none b r rs first pending s hskip hmr]
          exact ih first h pending s
        | some d =>
          rw [parseAll_cons_some r rs first d hskip hmr] at h
          cases hrest : parseAll rs first with
          | some ds2 => rw [hrest] at h; cases h
          | none =>
            rw [importLoop_cons_some b r rs first pending s d hskip hmr]
            by_cases hlen : (pending ++ [d]).length = b
            · rw [if_pos hlen]
              exact ih first hrest [] (applyBatch s (pending ++ [d]))
            · rw [if_neg hlen]
              exact ih first hrest (pending ++ [d]) s

theorem mutCols_upsertMerge (v : Option CellRecord) (d : CellRecord) :
    mutCols (upsertMerge v d) = mutCols d := by
  cases v <;> rfl

theorem immCols_upsertMerge_some (a d : CellRecord) :
    immCols (upsertMerge (Option.some a) d) = immCols a := rfl

theorem cellRecord_ext (a b : CellRecord)
    (h1 : immCols a = immCols b) (h2 : mutCols a = mutCols b) : a = b := by
  cases a
  cases b
  simp only [immCols, mutCols, Prod.mk.injEq] at h1 h2
  simp_all

theorem foldl_upsertStep_some (M : List CellRecord) :
    ∀ a, M.foldl upsertStep (Option.some a) = Option.some (M.foldl upsertVal a) := by
  induction M with
  | nil => intro a; rfl
  | cons d M ih =>
    intro a
    rw [List.foldl_cons, List.foldl_cons]
    exact ih (upsertVal a d)

theorem immCols_foldl_upsertVal (M : List CellRecord) :
    ∀ a, immCols (M.foldl upsertVal a) = immCols a := by
  induction M with
  | nil => intro a; rfl
  | cons d M ih =>
    intro a
    rw [List.foldl_cons, ih (upsertVal a d)]
    rfl

theorem foldl_applyRow_key (L : List CellRecord) :
    ∀ (s : Store) (k : Int × Int × Int × Int × Int),
      (L.foldl applyRow s) k =
        (L.filter (fun d => decide (natKey d = k))).foldl upsertStep (s k) := by
  induction L with
  | nil => intro s k; rfl
  | cons d L ih =>
    intro s k
    rw [List.foldl_cons, ih (applyRow s d) k]
    by_cases hk : natKey d = k
    · rw [List.filter_cons_of_pos (by simpa using hk), List.foldl_cons]
      congr 1
      unfold applyRow upsertStep
      rw [if_pos hk.symm, hk]
    · rw [List.filter_cons_of_neg (by simpa using hk)]
      congr 1
      unfold applyRow
      rw [if_neg (fun hc => hk hc.symm)]

theorem foldl_upsertStep_idem (M : List CellRecord) (v : Option CellRecord) :
    M.foldl upsertStep (M.foldl upsertStep v) = M.foldl upsertStep v := by
  rcases List.eq_nil_or_concat M with rfl | ⟨M2, dl, rfl⟩
  · rfl
  · rw [List.concat_eq_append] at *
    rw [List.foldl_concat, List.foldl_concat]
    rw [show upsertStep (M2.foldl upsertStep v) dl =
        Option.some (upsertMerge (M2.foldl upsertStep v) dl) from rfl]
    rw [foldl_upsertStep_some M2 (upsertMerge (M2.foldl upsertStep v) dl)]
    show Option.some (upsertMerge (Option.some (M2.foldl upsertVal
        (upsertMerge (M2.foldl upsertStep v) dl))) dl) =
      Option.some (upsertMerge (M2.foldl upsertStep v) dl)
    congr 1
    apply cellRecord_ext
    · rw [immCols_upsertMerge_some, immCols_foldl_upsertVal]
    · rw [mutCols_upsertMerge, mutCols_upsertMerge]

/-- C2: idempotent import — when an import run of file `F` from store `S`
completes, running it a second time from the resulting store changes
nothing (the store is keyed by the natural key, so it holds no duplicate
rows by construction), and each key present in the parsed file ends up
with the mutable columns (`modified`, `total_measures`, `lat`, `lon`,
`psc`, `range`) of the last row of `F` for that key. -/
theorem import_stations_idempotent (F : List ExtRow) (S : Store)
    (h : (importStations F S).ok = true) :
    importStations F (importStations F S).store = importStations F S ∧
    ∀ ds, parseAll F true = Option.some ds →
      ∀ (k : Int × Int × Int × Int × Int) (d : CellRecord),
        (ds.filter (fun d => decide (natKey d = k))).getLast? = Option.some d →
        ∃ rec, (importStations F S).store k = Option.some rec ∧
          mutCols rec = mutCols d := by
  have hds : ∃ ds, parseAll F true = Option.some ds := by
    cases hp : parseAll F true with
    | none =>
      have hko := parseAll_none_importLoop 10000 F true hp [] S
      rw [show importLoop 10000 F true [] S = importStations F S from rfl] at hko
      rw [hko] at h
      cases h
    | some ds => exact ⟨ds, rfl⟩
  obtain ⟨ds, hp⟩ := hds
  have hrun : importStations F S =
      { store := ds.foldl applyRow S, ok := true } := by
    have := importLoop_of_parseAll 10000 F true ds hp [] S
    rw [List.nil_append] at this
    exact this
  constructor
  · rw [hrun]
    have hrun2 : importStations F (ds.foldl applyRow S) =
        { store := ds.foldl applyRow (ds.foldl applyRow S), ok := true } := by
      have := importLoop_of_parseAll 10000 F true ds hp [] (ds.foldl applyRow S)
      rw [List.nil_append] at this
      exact this
    show importStations F (ds.foldl applyRow S) =
      { store := ds.foldl applyRow S, ok := true }
    rw [hrun2]
    congr 1
    funext k
    rw [foldl_applyRow_key, foldl_applyRow_key]
    exact foldl_upsertStep_idem _ _
  · intro ds2 hp2 k d hlast
    rw [hp] at hp2
    obtain rfl : ds = ds2 := Option.some.inj hp2
    rw [hrun]
    show ∃ rec, (ds.foldl applyRow S) k = Option.some rec ∧
      mutCols rec = mutCols d
    rw [foldl_applyRow_key]
    obtain ⟨M2, hM⟩ := List.getLast?_eq_some_iff.mp hlast
    rw [hM, List.foldl_concat]
    exact ⟨upsertMerge (M2.foldl upsertStep (S k)) d, rfl,
      mutCols_upsertMerge _ d⟩

/-- Witness for C2 at a concrete one-row file and the empty store. -/
theorem import_stations_idempotent_witness :
    (importStations
        [[("radio", Val.str "gsm"), ("mcc", Val.str "262"), ("mnc", Val.str "1"),
          ("lac", Val.str "2"), ("cid", Val.str "3")]] emptyStore).ok = true ∧
    importStations
        [[("radio", Val.str "gsm"), ("mcc", Val.str "262"), ("mnc", Val.str "1"),
          ("lac", Val.str "2"), ("cid", Val.str "3")]]
        (importStations
          [[("radio", Val.str "gsm"), ("mcc", Val.str "262"), ("mnc", Val.str "1"),
            ("lac", Val.str "2"), ("cid", Val.str "3")]] emptyStore).store =
      importStations
        [[("radio", Val.str "gsm"), ("mcc", Val.str "262"), ("mnc", Val.str "1"),
          ("lac", Val.str "2"), ("cid", Val.str "3")]] emptyStore ∧
      ∀ ds, parseAll
          [[("radio", Val.str "gsm"), ("mcc", Val.str "262"), ("mnc", Val.str "1"),
            ("lac", Val.str "2"), ("cid", Val.str "3")]] true = Option.some ds →
        ∀ (k : Int × Int × Int × Int × Int) (d : CellRecord),
          (ds.filter (fun d => decide (natKey d = k))).getLast? = Option.some d →
          ∃ rec, (importStations
              [[("radio", Val.str "gsm"), ("mcc", Val.str "262"), ("mnc", Val.str "1"),
                ("lac", Val.str "2"), ("cid", Val.str "3")]] emptyStore).store k =
            Option.some rec ∧ mutCols rec = mutCols d :=
  ⟨by decide,
    import_stations_idempotent
      [[("radio", Val.str "gsm"), ("mcc", Val.str "262"), ("mnc", Val.str "1"),
        ("lac", Val.str "2"), ("cid", Val.str "3")]] emptyStore (by decide)⟩
